import Mathlib

/-
  Verification of the dryrun run orchestrator (packages/server/src/services/agent/runner.ts)
  against its natural-language specification.

  The embedding mirrors the TypeScript source: the AgentRunner.run loop is modelled as a
  fuel-indexed state transformer over an explicit LoopState, the interaction-pattern
  detector and the severity weighting are pure functions translated line by line, and the
  external collaborators (LLM oracle, browser, stop requests) are an explicit environment.
-/

namespace DryRun

/-! ## Basic enumerations from packages/shared/src/index.ts -/

/-- FrictionSeverity from shared types: low, medium, high. -/
inductive Severity
  | low
  | medium
  | high
  deriving DecidableEq, Repr

/-- FrictionCategory from shared types: the six fixed UX categories. -/
inductive FrictionCategory
  | navigation
  | forms
  | contentClarity
  | visualDesign
  | performance
  | accessibility
  deriving DecidableEq, Repr

/-- FrictionPattern from shared types: the auto-detected behavioral labels. -/
inductive FrictionPattern
  | repeatedClicks
  | backtracking
  | scrollHunting
  | formAbandonment
  | hesitation
  | errorRecovery
  deriving DecidableEq, Repr

/-- AgentActionType from shared types. -/
inductive AgentActionType
  | click
  | type
  | scroll
  | navigate
  | done
  | stuck
  deriving DecidableEq, Repr

/-- EventType from shared types. -/
inductive EventType
  | navigation
  | click
  | type
  | scroll
  | reasoning
  | friction
  | goal_reached
  | abandoned
  | error
  deriving DecidableEq, Repr

/-- RunStatus values for a Run. -/
inductive RunStatus
  | pending
  | running
  | completed
  | failed
  | stopped
  deriving DecidableEq, Repr

/-- Terminal statuses are completed, failed and stopped. -/
def RunStatus.isTerminal : RunStatus → Bool
  | .completed => true
  | .failed => true
  | .stopped => true
  | _ => false

/-! ## JavaScript-style helpers

The TypeScript source relies on JS truthiness (empty string and undefined are falsy)
and on the logical-or fallback idiom. -/

/-- Truthiness of an optional string field: undefined and the empty string are falsy. -/
def jsTruthy : Option String → Bool
  | none => false
  | some s => s ≠ ""

/-- The idiom `s || d` for a string s with default d: falls back on the empty string. -/
def jsOrStr (s : String) (d : String) : String :=
  if s = "" then d else s

/-- The idiom `n || d` for a number n with default d: falls back on zero. -/
def jsOrNat (n : Nat) (d : Nat) : Nat :=
  if n = 0 then d else n

/-- Lowercasing, modelling String.prototype.toLowerCase for the targets involved. -/
def toLowerStr (s : String) : String :=
  ⟨s.data.map Char.toLower⟩

/-- Substring search on character lists, modelling String.prototype.includes. -/
def subSearch (pat : List Char) : List Char → Bool
  | [] => pat.isPrefixOf ([] : List Char)
  | c :: rest => pat.isPrefixOf (c :: rest) || subSearch pat rest

/-- Substring containment on strings, modelling String.prototype.includes. -/
def containsSub (s pat : String) : Bool :=
  subSearch pat.data s.data

/-- Array.prototype.slice with a negative index: the last n elements of a list. -/
def lastN (n : Nat) (l : List α) : List α :=
  l.drop (l.length - n)

/-! ## Severity weighting (AgentRunner.calculateWeightedSeverity)

The TypeScript method first looks the category priority up in the archetype
(`archetype.priorities[category] || 3`) and then adjusts the base severity from the
priority alone; the priority-driven core is translated here with the priority as an
explicit argument. -/

/-- The numeric severity scale used by calculateWeightedSeverity. -/
def severityValue : Severity → Nat
  | .low => 1
  | .medium => 2
  | .high => 3

/-- Core of AgentRunner.calculateWeightedSeverity: adjust a base severity by the
archetype priority (1-5) of the friction category. -/
def calculateWeightedSeverity (baseSeverity : Severity) (categoryPriority : Nat) : Severity :=
  let baseValue := severityValue baseSeverity
  if 4 ≤ categoryPriority ∧ baseSeverity ≠ Severity.high then
    if baseValue = 1 then Severity.medium else Severity.high
  else if categoryPriority ≤ 2 ∧ baseSeverity ≠ Severity.low then
    if baseValue = 3 then Severity.medium else Severity.low
  else
    baseSeverity

/-- Modelled from the spec wording of C6: escalate one step, low to medium and
medium or high to high. Used only to compare the code against the claim. -/
def specEscalateOneStep : Severity → Severity
  | .low => .medium
  | .medium => .high
  | .high => .high

/-- Modelled from the spec wording of C6: de-escalate one step, high to medium and
medium or low to low. Used only to compare the code against the claim. -/
def specDeEscalateOneStep : Severity → Severity
  | .high => .medium
  | .medium => .low
  | .low => .low

/-! ## Events, decisions and friction points

Only the event payload fields that the runner itself reads back (url of navigation
events, direction of scroll events, target of click events) are modelled; the rest of
the payload is opaque to the orchestrator. -/

/-- The structured payload of a RunEvent, restricted to the fields the runner reads. -/
structure EventData where
  url : Option String := none
  direction : Option String := none
  target : Option String := none
  deriving DecidableEq, Repr

/-- A persisted RunEvent, restricted to the fields the runner reads. -/
structure RunEvent where
  type : EventType
  data : EventData := {}
  deriving DecidableEq, Repr

/-- Event constructor, mirroring createEvent via createAndSaveEvent and
createEventWithScreenshot. -/
def mkEvent (t : EventType) (d : EventData := {}) : RunEvent :=
  { type := t, data := d }

/-- The frictionAssessment block of an agent action. -/
structure FrictionAssessment where
  detected : Bool
  description : Option String := none
  severity : Option Severity := none
  category : Option FrictionCategory := none
  pattern : Option FrictionPattern := none
  deriving DecidableEq, Repr

/-- AgentAction from shared types; reasoning is a plain (possibly empty) string. -/
structure AgentAction where
  type : AgentActionType
  target : Option String := none
  value : Option String := none
  reasoning : String := ""
  frictionAssessment : Option FrictionAssessment := none
  deriving DecidableEq, Repr

/-- LLMDecision from shared types. -/
structure LLMDecision where
  observation : String := ""
  reasoning : String := ""
  action : AgentAction
  deriving DecidableEq, Repr

/-- A created FrictionPoint record, restricted to the fields the runner computes. -/
structure FrictionPoint where
  description : String
  severity : Severity
  category : FrictionCategory
  pattern : Option FrictionPattern
  deriving DecidableEq, Repr

/-- Behavioral constraints of an archetype, restricted to the abandonment threshold. -/
structure ArchetypeConstraints where
  maxFrictionPoints : Nat
  deriving Repr

/-- An AgentArchetype, restricted to what the runner consumes: the category priority
vector and the friction-abandon threshold. -/
structure AgentArchetype where
  priorities : FrictionCategory → Nat
  constraints : ArchetypeConstraints

/-- The priority lookup in AgentRunner.calculateWeightedSeverity:
`archetype.priorities[category] || 3`. -/
def priorityLookup (arch : AgentArchetype) (category : FrictionCategory) : Nat :=
  jsOrNat (arch.priorities category) 3

/-! ## Interaction pattern detector (AgentRunner.detectInteractionPattern)

The method mutates the per-run InteractionTracker and early-returns the first matching
pattern; it is translated as a pure function threading the tracker, decomposed into the
source blocks in their exact order. -/

/-- The per-run InteractionTracker; the click-target map is an association list. -/
structure InteractionTracker where
  clickTargets : List (String × Nat)
  navigationHistory : List String
  scrollCount : Nat
  scrollDirection : Option String
  lastFormField : Option String
  formStarted : Bool
  deriving DecidableEq, Repr

/-- AgentRunner.createFreshTracker. -/
def createFreshTracker : InteractionTracker :=
  { clickTargets := []
    navigationHistory := []
    scrollCount := 0
    scrollDirection := none
    lastFormField := none
    formStarted := false }

/-- Map.get with default 0, for the click-target counts. -/
def mapGetD (m : List (String × Nat)) (k : String) : Nat :=
  match m.find? (fun p => p.1 = k) with
  | some p => p.2
  | none => 0

/-- Map.set for the click-target counts. -/
def mapSet (m : List (String × Nat)) (k : String) (v : Nat) : List (String × Nat) :=
  match m with
  | [] => [(k, v)]
  | p :: rest => if p.1 = k then (k, v) :: rest else p :: mapSet rest k v

/-- Detector thresholds from the source constants. -/
def REPEATED_CLICK_THRESHOLD : Nat := 2

/-- Window of recent navigation events for backtracking detection. -/
def BACKTRACK_WINDOW_EVENTS : Nat := 5

/-- Cumulative scroll count threshold for scrollHunting. -/
def SCROLL_HUNT_THRESHOLD : Nat := 3

/-- Duplicate check on the recent navigation urls: a Set has fewer entries than the
array exactly when the array holds a duplicate. -/
def hasDup (l : List (Option String)) : Bool :=
  l.eraseDups.length < l.length

/-- The unconditional backtracking check over the last five navigation events. -/
def recentNavHasDup (events : List RunEvent) : Bool :=
  let recentNavEvents := lastN BACKTRACK_WINDOW_EVENTS (events.filter (fun e => e.type = EventType.navigation))
  if 2 ≤ recentNavEvents.length then
    hasDup (recentNavEvents.map (fun e => e.data.url))
  else
    false

/-- Count of adjacent direction changes among recent scroll events. -/
def countDirectionChanges : List (Option String) → Nat
  | [] => 0
  | [_] => 0
  | a :: b :: rest => (if b ≠ a then 1 else 0) + countDirectionChanges (b :: rest)

/-- A click event whose target contains a submit-like keyword, from the hasFormSubmit
check of the form-abandonment block. -/
def isSubmitLikeClick (e : RunEvent) : Bool :=
  e.type = EventType.click &&
    (match e.data.target with
     | some t =>
         containsSub (toLowerStr t) "submit" ||
         containsSub (toLowerStr t) "continue" ||
         containsSub (toLowerStr t) "next"
     | none => false)

/-- Event types counted as actions in the hesitation check. The source list is the
strings click, type and navigate; navigate is not an EventType value (navigation
events are typed navigation), so that entry never matches any event. -/
def isActionEvent (e : RunEvent) : Bool :=
  e.type = EventType.click || e.type = EventType.type

/-- Final detector blocks: hesitation then errorRecovery, in source order. -/
def detectTail (events : List RunEvent) : Option FrictionPattern :=
  let recentReasoningEvents := lastN 5 (events.filter (fun e => e.type = EventType.reasoning))
  let recentActionEvents := lastN 5 (events.filter isActionEvent)
  if 3 < recentReasoningEvents.length ∧ recentActionEvents.length < 2 then
    some FrictionPattern.hesitation
  else if (lastN 3 events).any (fun e => e.type = EventType.error) then
    some FrictionPattern.errorRecovery
  else
    none

/-- Form blocks of the detector: the type-action tracking mutation followed by the
form-abandonment check, then the tail blocks. -/
def detectFromForm (tr : InteractionTracker) (action : AgentAction)
    (events : List RunEvent) : Option FrictionPattern × InteractionTracker :=
  let tr :=
    if action.type = AgentActionType.type ∧ jsTruthy action.target then
      { tr with formStarted := true, lastFormField := action.target }
    else tr
  if (action.type = AgentActionType.navigate ∨ action.type = AgentActionType.click) ∧
      tr.formStarted then
    if jsTruthy action.target ∧
        containsSub (toLowerStr (action.target.getD "")) "submit" = false then
      let recentTypeEvents := lastN 3 (events.filter (fun e => e.type = EventType.type))
      if 0 < recentTypeEvents.length then
        let recentEvents := lastN 5 events
        let hasFormSubmit := recentEvents.any isSubmitLikeClick
        if hasFormSubmit = false ∧ action.type = AgentActionType.navigate then
          (some FrictionPattern.formAbandonment, tr)
        else (detectTail events, tr)
      else (detectTail events, tr)
    else (detectTail events, tr)
  else (detectTail events, tr)

/-- Scroll block of the detector: the scroll-count mutation and the scrollHunting
check, then the later blocks. -/
def detectFromScroll (tr : InteractionTracker) (action : AgentAction)
    (events : List RunEvent) : Option FrictionPattern × InteractionTracker :=
  if action.type = AgentActionType.scroll then
    let tr := { tr with scrollCount := tr.scrollCount + 1 }
    let recentScrollEvents := lastN 5 (events.filter (fun e => e.type = EventType.scroll))
    let directions := recentScrollEvents.map (fun e => e.data.direction)
    let directionChanges := countDirectionChanges directions
    if 2 ≤ directionChanges ∨ SCROLL_HUNT_THRESHOLD ≤ tr.scrollCount then
      (some FrictionPattern.scrollHunting, tr)
    else detectFromForm tr action events
  else detectFromForm tr action events

/-- Navigation blocks of the detector: the tracker-based backtracking check and the
recent-navigation duplicate check, then the later blocks. -/
def detectFromNav (tr : InteractionTracker) (action : AgentAction)
    (events : List RunEvent) : Option FrictionPattern × InteractionTracker :=
  if action.type = AgentActionType.navigate ∧ jsTruthy action.target then
    let tgt := action.target.getD ""
    if tr.navigationHistory.contains tgt then
      (some FrictionPattern.backtracking, tr)
    else
      let tr := { tr with navigationHistory := tr.navigationHistory ++ [tgt] }
      if recentNavHasDup events then (some FrictionPattern.backtracking, tr)
      else detectFromScroll tr action events
  else
    if recentNavHasDup events then (some FrictionPattern.backtracking, tr)
    else detectFromScroll tr action events

/-- AgentRunner.detectInteractionPattern: evaluate the source blocks in order and
return the first matching pattern together with the updated tracker. -/
def detectInteractionPattern (tr : InteractionTracker) (decision : LLMDecision)
    (events : List RunEvent) : Option FrictionPattern × InteractionTracker :=
  let action := decision.action
  if action.type = AgentActionType.click ∧ jsTruthy action.target then
    let tgt := action.target.getD ""
    let currentCount := mapGetD tr.clickTargets tgt
    let tr := { tr with clickTargets := mapSet tr.clickTargets tgt (currentCount + 1) }
    if REPEATED_CLICK_THRESHOLD ≤ currentCount + 1 then
      (some FrictionPattern.repeatedClicks, tr)
    else detectFromNav tr action events
  else detectFromNav tr action events

/-! ## The run loop (AgentRunner.run)

The loop is modelled as a fuel-indexed state transformer. The external collaborators
are an explicit environment: the oracle maps each step number to either a thrown error
or a decision, execFails says whether the browser raises while executing the action of
a step, stopBefore gives the cooperative stop flag at each loop-boundary check, and
stopAtEnd gives it at finalization. -/

/-- Source constant: the step ceiling. -/
def MAX_STEPS : Nat := 50

/-- The mutable locals of AgentRunner.run together with the persisted rows they
produce. The execErrorCount field is a ghost counter of action-execution failures,
added only to state the friction-count accounting; it does not exist in the source. -/
structure LoopState where
  stepCount : Nat
  frictionCount : Nat
  execErrorCount : Nat
  goalReached : Bool
  abandonReason : Option String
  tracker : InteractionTracker
  events : List RunEvent
  frictionPoints : List FrictionPoint

/-- The environment of one run: the external collaborators and the stop requests. -/
structure Env where
  url : String
  oracle : Nat → Except Unit LLMDecision
  execFails : Nat → Bool
  stopBefore : Nat → Bool
  stopAtEnd : Bool
  stopViaRoute : Bool
  initFails : Bool

/-- Result of one loop iteration: either the loop continues or it breaks. -/
inductive StepResult
  | next (s : LoopState)
  | halt (s : LoopState)

/-- The state carried by a StepResult. -/
def StepResult.state : StepResult → LoopState
  | .next s => s
  | .halt s => s

/-- The abandon message of the friction-threshold break. -/
def tooMuchFrictionMsg (fc mx : Nat) : String :=
  "Too much friction (" ++ toString fc ++ " points exceeded threshold of " ++
    toString mx ++ ")"

/-- The abandon message of the step-ceiling break. -/
def maxStepsMsg : String :=
  "Maximum steps (" ++ toString MAX_STEPS ++ ") reached without completing goal"

/-- The abandon message of the execution-error threshold break. -/
def tooManyErrorsMsg : String :=
  "Too many errors during execution"

/-- The default reason of the stuck break: `action.reasoning || 'Agent got stuck'`. -/
def stuckDefaultMsg : String :=
  "Agent got stuck"

/-- AgentRunner.executeAction: either throws (missing target or value, or a browser
failure) or returns the event it persists. -/
def executeActionResult (browserFails : Bool) (action : AgentAction) :
    Except Unit (List RunEvent) :=
  match action.type with
  | AgentActionType.click =>
      if jsTruthy action.target = false then Except.error ()
      else if browserFails then Except.error ()
      else Except.ok [mkEvent EventType.click { target := action.target }]
  | AgentActionType.type =>
      if (jsTruthy action.target && jsTruthy action.value) = false then Except.error ()
      else if browserFails then Except.error ()
      else Except.ok [mkEvent EventType.type { target := action.target }]
  | AgentActionType.scroll =>
      if browserFails then Except.error ()
      else Except.ok [mkEvent EventType.scroll { direction := some "down" }]
  | AgentActionType.navigate =>
      if jsTruthy action.target = false then Except.error ()
      else if browserFails then Except.error ()
      else Except.ok [mkEvent EventType.navigation { url := action.target }]
  | AgentActionType.done => Except.ok []
  | AgentActionType.stuck => Except.ok []

/-- Did the decision judge friction detected. -/
def frictionDetected (decision : LLMDecision) : Bool :=
  match decision.action.frictionAssessment with
  | some fa => fa.detected
  | none => false

/-- Action part of a loop iteration: the done and stuck exits, then action execution
with the error-as-friction accounting, from the second half of the loop body. -/
def afterFriction (env : Env) (arch : AgentArchetype) (step : Nat)
    (decision : LLMDecision) (s : LoopState) : StepResult :=
  let action := decision.action
  if action.type = AgentActionType.done then
    StepResult.halt { s with goalReached := true,
                             events := s.events ++ [mkEvent EventType.goal_reached] }
  else if action.type = AgentActionType.stuck then
    let reason := jsOrStr action.reasoning stuckDefaultMsg
    StepResult.halt { s with abandonReason := some reason,
                             events := s.events ++ [mkEvent EventType.abandoned] }
  else
    match executeActionResult (env.execFails step) action with
    | Except.ok evs => StepResult.next { s with events := s.events ++ evs }
    | Except.error _ =>
        let s := { s with
          events := s.events ++ [mkEvent EventType.error { target := action.target }]
          frictionCount := s.frictionCount + 1
          execErrorCount := s.execErrorCount + 1 }
        if arch.constraints.maxFrictionPoints ≤ s.frictionCount then
          StepResult.halt { s with abandonReason := some tooManyErrorsMsg }
        else StepResult.next s

/-- Friction part of a loop iteration: if the decision judged friction detected, build
the weighted FrictionPoint, persist it, and abandon when the counter reaches the
archetype threshold; then the action part. -/
def frictionPart (env : Env) (arch : AgentArchetype) (step : Nat)
    (decision : LLMDecision) (detectedPattern : Option FrictionPattern)
    (s : LoopState) : StepResult :=
  if frictionDetected decision then
    match decision.action.frictionAssessment with
    | none => afterFriction env arch step decision s
    | some fa =>
        let s := { s with frictionCount := s.frictionCount + 1 }
        let pattern : Option FrictionPattern :=
          match fa.pattern with
          | some p => some p
          | none => detectedPattern
        let category := fa.category.getD FrictionCategory.contentClarity
        let weightedSeverity :=
          calculateWeightedSeverity (fa.severity.getD Severity.medium)
            (priorityLookup arch category)
        let fp : FrictionPoint :=
          { description := jsOrStr (fa.description.getD "") "Unspecified friction"
            severity := weightedSeverity
            category := category
            pattern := pattern }
        let s := { s with
          frictionPoints := s.frictionPoints ++ [fp]
          events := s.events ++ [mkEvent EventType.friction] }
        if arch.constraints.maxFrictionPoints ≤ s.frictionCount then
          let reason := tooMuchFrictionMsg s.frictionCount arch.constraints.maxFrictionPoints
          StepResult.halt { s with abandonReason := some reason,
                                   events := s.events ++ [mkEvent EventType.abandoned] }
        else afterFriction env arch step decision s
  else afterFriction env arch step decision s

/-- One iteration of the main agent loop: increment the step counter, consult the
oracle (an oracle throw logs an error event and breaks), log the reasoning event, run
the pattern detector over the pre-iteration history, then the friction and action
parts. -/
def stepBody (env : Env) (arch : AgentArchetype) (s : LoopState) : StepResult :=
  let s := { s with stepCount := s.stepCount + 1 }
  let step := s.stepCount
  let events := s.events
  match env.oracle step with
  | Except.error _ =>
      StepResult.halt { s with events := s.events ++ [mkEvent EventType.error] }
  | Except.ok decision =>
      let s := { s with events := s.events ++ [mkEvent EventType.reasoning] }
      let det := detectInteractionPattern s.tracker decision events
      let s := { s with tracker := det.2 }
      frictionPart env arch step decision det.1 s

/-- The while loop of AgentRunner.run, with fuel bounding the number of iterations.
The guard mirrors `stepCount < MAX_STEPS && !this.shouldStop`. -/
def runLoop (env : Env) (arch : AgentArchetype) : Nat → LoopState → LoopState
  | 0, s => s
  | fuel + 1, s =>
      if s.stepCount < MAX_STEPS ∧ env.stopBefore (s.stepCount + 1) = false then
        match stepBody env arch s with
        | StepResult.next s' => runLoop env arch fuel s'
        | StepResult.halt s' => s'
      else s

/-- The post-loop step-ceiling check of AgentRunner.run. -/
def afterLoop (s : LoopState) : LoopState :=
  if MAX_STEPS ≤ s.stepCount ∧ s.goalReached = false then
    { s with abandonReason := some maxStepsMsg,
             events := s.events ++ [mkEvent EventType.abandoned] }
  else s

/-- The state before the first loop iteration: the initial navigation has been
performed, recorded in the tracker and logged as the first event. -/
def initialState (url : String) : LoopState :=
  { stepCount := 0
    frictionCount := 0
    execErrorCount := 0
    goalReached := false
    abandonReason := none
    tracker := { createFreshTracker with navigationHistory := [url] }
    events := [mkEvent EventType.navigation { url := some url }]
    frictionPoints := [] }

/-- The state reaching finalization when the browser launch or the initial navigation
throws: nothing was logged and the loop never ran. -/
def emptyState : LoopState :=
  { stepCount := 0
    frictionCount := 0
    execErrorCount := 0
    goalReached := false
    abandonReason := none
    tracker := createFreshTracker
    events := []
    frictionPoints := [] }

/-- The persisted run summary computed at finalization. -/
structure RunSummary where
  stepsCompleted : Nat
  goalReached : Bool
  abandonReason : Option String
  frictionPointCount : Nat

/-- The terminal status chosen at finalization:
`this.shouldStop ? stopped : goalReached ? completed : failed`. -/
def terminalStatusOf (env : Env) (s : LoopState) : RunStatus :=
  if env.stopAtEnd then RunStatus.stopped
  else if s.goalReached then RunStatus.completed
  else RunStatus.failed

/-- The observable outcome of one run. statusWrites is the sequence of
updateRunStatus calls touching this run: the initial running write, the write the
stop route handler performs when a stop is requested through it, and the
finalization write. -/
structure RunResult where
  final : LoopState
  summary : RunSummary
  finalStatus : RunStatus
  statusWrites : List RunStatus

/-- AgentRunner.run end to end: the try block (launch, initial navigation, the loop,
the step-ceiling check) followed by the finally block (summary and terminal status). -/
def runAgent (env : Env) (arch : AgentArchetype) : RunResult :=
  let s :=
    if env.initFails then emptyState
    else afterLoop (runLoop env arch MAX_STEPS (initialState env.url))
  let status := terminalStatusOf env s
  { final := s
    summary :=
      { stepsCompleted := s.stepCount
        goalReached := s.goalReached
        abandonReason := s.abandonReason
        frictionPointCount := s.frictionCount }
    finalStatus := status
    statusWrites :=
      [RunStatus.running] ++
        (if env.stopViaRoute then [RunStatus.stopped] else []) ++ [status] }

/-- The synthetic decision GeminiService.parseDecision returns when the response is
unparseable (the catch branch of parseDecision). -/
def parseFailureDecision : LLMDecision :=
  { observation := "Failed to parse response"
    reasoning := "Error parsing LLM output"
    action :=
      { type := AgentActionType.stuck
        reasoning := "Failed to determine next action due to parsing error" } }

/-! ## Invariant predicates used by the theorems -/

/-- Accounting invariant: the friction counter equals the number of created
FrictionPoint records plus the number of action-execution failures. -/
def frictionInv (s : LoopState) : Prop :=
  s.frictionCount = s.frictionPoints.length + s.execErrorCount

/-- Every scroll event in a history has direction down. -/
def scrollInv (l : List RunEvent) : Prop :=
  ∀ e ∈ l, e.type = EventType.scroll → e.data.direction = some "down"

/-- A populated abandon reason: present and not the empty string. -/
def reasonPopulated (s : LoopState) : Prop :=
  s.abandonReason ≠ none ∧ s.abandonReason ≠ some ""

/-- Once the friction counter has reached the threshold mx, the state carries a
populated abandon reason and the goal was not reached. -/
def thresholdGood (mx : Nat) (s : LoopState) : Prop :=
  mx ≤ s.frictionCount → (reasonPopulated s ∧ s.goalReached = false)

/-- An oracle step is benign when it returns a decision that is neither done nor
stuck, judges no friction, and whose action executes without throwing. -/
def benignOracle (env : Env) : Prop :=
  ∀ k, ∃ d, env.oracle k = Except.ok d ∧
    d.action.type ≠ AgentActionType.done ∧
    d.action.type ≠ AgentActionType.stuck ∧
    frictionDetected d = false ∧
    ∃ evs, executeActionResult (env.execFails k) d.action = Except.ok evs

/-! ## Concrete inputs used by counterexamples and witnesses -/

/-- A tracker in which a form was started by an earlier type action. -/
def cexTrackerC8 : InteractionTracker :=
  { createFreshTracker with formStarted := true }

/-- A navigate decision whose target contains the keyword continue. -/
def navContinueDecision : LLMDecision :=
  { action := { type := AgentActionType.navigate, target := some "continue-shopping" } }

/-- A type event on a form field. -/
def typeEvt : RunEvent := mkEvent EventType.type { target := some "name-field" }

/-- A reasoning event. -/
def reasoningEvt : RunEvent := mkEvent EventType.reasoning

/-- A downward scroll event. -/
def scrollEvt : RunEvent := mkEvent EventType.scroll { direction := some "down" }

/-- A decision with action done. -/
def doneDecision : LLMDecision := { action := { type := AgentActionType.done } }

/-- A history of four reasoning events followed by five scroll events: the last five
events hold no reasoning event at all. -/
def cexEventsC9 : List RunEvent :=
  [reasoningEvt, reasoningEvt, reasoningEvt, reasoningEvt,
   scrollEvt, scrollEvt, scrollEvt, scrollEvt, scrollEvt]

/-- A click decision with no friction assessment. -/
def clickDecision : LLMDecision :=
  { action := { type := AgentActionType.click, target := some "Submit order" } }

/-- A scroll decision with no friction assessment. -/
def scrollDecision : LLMDecision :=
  { action := { type := AgentActionType.scroll } }

/-- A scroll decision judging friction detected, with no further oracle fields. -/
def frictionDecision : LLMDecision :=
  { action := { type := AgentActionType.scroll
                frictionAssessment := some { detected := true } } }

/-- An archetype with neutral priorities and a friction-abandon threshold of one. -/
def cexArch : AgentArchetype :=
  { priorities := fun _ => 3, constraints := { maxFrictionPoints := 1 } }

/-- An environment in which every action execution fails while the oracle keeps
returning a plain click decision. -/
def cexEnvC1 : Env :=
  { url := "http://site.example"
    oracle := fun _ => Except.ok clickDecision
    execFails := fun _ => true
    stopBefore := fun _ => false
    stopAtEnd := false
    stopViaRoute := false
    initFails := false }

/-- An environment in which a stop is requested through the stop route before the
first step. -/
def cexEnvC2 : Env :=
  { url := "http://site.example"
    oracle := fun _ => Except.ok clickDecision
    execFails := fun _ => false
    stopBefore := fun _ => true
    stopAtEnd := true
    stopViaRoute := true
    initFails := false }

/-- An environment in which the oracle call throws at every step. -/
def cexEnvC5 : Env :=
  { url := "http://site.example"
    oracle := fun _ => Except.error ()
    execFails := fun _ => false
    stopBefore := fun _ => false
    stopAtEnd := false
    stopViaRoute := false
    initFails := false }

/-- An environment in which the oracle returns the parse-failure stuck decision. -/
def wEnvC5 : Env :=
  { cexEnvC5 with oracle := fun _ => Except.ok parseFailureDecision }

/-- An environment in which the first decision judges friction, with no stop. -/
def wEnvC3 : Env :=
  { cexEnvC5 with oracle := fun _ => Except.ok frictionDecision }

/-- An environment whose oracle always returns a benign scroll decision and whose
browser never fails: the run exhausts the step budget. -/
def wEnvC4 : Env :=
  { cexEnvC5 with oracle := fun _ => Except.ok scrollDecision }

/-- An oracle returning one scroll decision and then done. -/
def scrollThenDone : Nat → Except Unit LLMDecision :=
  fun k => if k = 1 then Except.ok scrollDecision else Except.ok doneDecision

/-- An environment producing a short run holding one scroll event. -/
def wEnvC10 : Env :=
  { cexEnvC5 with oracle := scrollThenDone }

/-! ## Theorems -/

/-- C6: the severity weighting satisfies weight(low, 5) = medium,
weight(high, 1) = medium and weight(medium, 3) = medium; with priority at least 4 and
base not high it escalates one step (low to medium, medium to high); with priority at
most 2 and base not low it de-escalates one step (high to medium, medium to low);
otherwise it returns the base severity unchanged. -/
theorem weight_matches_spec :
    calculateWeightedSeverity Severity.low 5 = Severity.medium ∧
    calculateWeightedSeverity Severity.high 1 = Severity.medium ∧
    calculateWeightedSeverity Severity.medium 3 = Severity.medium ∧
    (∀ s p, 4 ≤ p → s ≠ Severity.high →
      calculateWeightedSeverity s p = specEscalateOneStep s) ∧
    (∀ s p, p ≤ 2 → s ≠ Severity.low →
      calculateWeightedSeverity s p = specDeEscalateOneStep s) ∧
    (∀ s p, ¬(4 ≤ p ∧ s ≠ Severity.high) → ¬(p ≤ 2 ∧ s ≠ Severity.low) →
      calculateWeightedSeverity s p = s) := by
  refine ⟨by decide, by decide, by decide, ?_, ?_, ?_⟩
  · intro s p hp hs
    cases s
    · simp [calculateWeightedSeverity, severityValue, specEscalateOneStep, hp]
    · simp [calculateWeightedSeverity, severityValue, specEscalateOneStep, hp]
    · exact absurd rfl hs
  · intro s p hp hs
    cases s
    · exact absurd rfl hs
    · have h4 : ¬ 4 ≤ p := by omega
      simp [calculateWeightedSeverity, severityValue, specDeEscalateOneStep, hp, h4]
    · simp [calculateWeightedSeverity, severityValue, specDeEscalateOneStep, hp]
  · intro s p h1 h2
    cases s
    · have h4 : ¬ 4 ≤ p := fun hp => h1 ⟨hp, by decide⟩
      simp [calculateWeightedSeverity, severityValue, h4]
    · have h4 : ¬ 4 ≤ p := fun hp => h1 ⟨hp, by decide⟩
      have h2l : ¬ p ≤ 2 := fun hp => h2 ⟨hp, by decide⟩
      simp [calculateWeightedSeverity, severityValue, h4, h2l]
    · have h2l : ¬ p ≤ 2 := fun hp => h2 ⟨hp, by decide⟩
      simp [calculateWeightedSeverity, severityValue, h2l]

/-- Witness for C6: the conditional parts of the weighting specification hold at
concrete inputs. -/
theorem weight_matches_spec_witness :
    calculateWeightedSeverity Severity.low 4 = specEscalateOneStep Severity.low ∧
    calculateWeightedSeverity Severity.high 2 = specDeEscalateOneStep Severity.high ∧
    calculateWeightedSeverity Severity.high 5 = Severity.high :=
  ⟨weight_matches_spec.2.2.2.1 Severity.low 4 (by decide) (by decide),
   weight_matches_spec.2.2.2.2.1 Severity.high 2 (by decide) (by decide),
   weight_matches_spec.2.2.2.2.2 Severity.high 5 (by decide) (by decide)⟩

/-- C7 counterexample: the weighting is not idempotent; reapplying it with the same
priority escalates low first to medium and then to high. -/
theorem weight_not_idempotent :
    ¬ (calculateWeightedSeverity (calculateWeightedSeverity Severity.low 5) 5 =
        calculateWeightedSeverity Severity.low 5) := by decide

/-- C7 amended: for every base severity and priority in 1..5 the weighting is
monotonic (never below the input when priority is at least 4, never above it when
priority is at most 2, unchanged at priority 3), and while one reapplication is not
idempotent, a second application reaches a fixed point. -/
theorem weight_monotone_and_eventually_fixed :
    ∀ s p, 1 ≤ p → p ≤ 5 →
      (4 ≤ p → severityValue s ≤ severityValue (calculateWeightedSeverity s p)) ∧
      (p ≤ 2 → severityValue (calculateWeightedSeverity s p) ≤ severityValue s) ∧
      (p = 3 → calculateWeightedSeverity s p = s) ∧
      calculateWeightedSeverity
          (calculateWeightedSeverity (calculateWeightedSeverity s p) p) p =
        calculateWeightedSeverity (calculateWeightedSeverity s p) p := by
  intro s p h1 h5
  interval_cases p <;> cases s <;> decide

/-- Helper: the length of the last n elements is the minimum of n and the length. -/
theorem lastN_length (n : Nat) (l : List α) : (lastN n l).length = min n l.length := by
  simp [lastN]
  omega

/-- Helper: the tail blocks of the detector never return formAbandonment. -/
theorem detectTail_ne_formAbandonment (events : List RunEvent) :
    detectTail events ≠ some FrictionPattern.formAbandonment := by
  simp only [detectTail]
  split_ifs <;> simp

/-- Helper: the tail blocks return hesitation exactly when the whole history holds
more than three reasoning events and fewer than two click or type events. -/
theorem detectTail_hesitation (events : List RunEvent) :
    (detectTail events = some FrictionPattern.hesitation) ↔
      (3 < (events.filter (fun e => e.type = EventType.reasoning)).length ∧
       (events.filter isActionEvent).length < 2) := by
  have hr := lastN_length 5 (events.filter (fun e => e.type = EventType.reasoning))
  have ha := lastN_length 5 (events.filter isActionEvent)
  simp only [detectTail]
  split_ifs with h1 h2
  · obtain ⟨h11, h12⟩ := h1
    exact iff_of_true rfl ⟨by omega, by omega⟩
  · refine iff_of_false (by simp) ?_
    intro ⟨a, b⟩
    exact h1 ⟨by omega, by omega⟩
  · refine iff_of_false (by simp) ?_
    intro ⟨a, b⟩
    exact h1 ⟨by omega, by omega⟩

/-- Witness for C7 amended: the monotonicity and fixed-point facts at low and
priority 5. -/
theorem weight_monotone_and_eventually_fixed_witness :
    (4 ≤ 5 → severityValue Severity.low ≤
        severityValue (calculateWeightedSeverity Severity.low 5)) ∧
    (5 ≤ 2 → severityValue (calculateWeightedSeverity Severity.low 5) ≤
        severityValue Severity.low) ∧
    ((5 : Nat) = 3 → calculateWeightedSeverity Severity.low 5 = Severity.low) ∧
    calculateWeightedSeverity
        (calculateWeightedSeverity (calculateWeightedSeverity Severity.low 5) 5) 5 =
      calculateWeightedSeverity (calculateWeightedSeverity Severity.low 5) 5 :=
  weight_monotone_and_eventually_fixed Severity.low 5 (by decide) (by decide)

/-- C8 counterexample: with a form started, the detector fires formAbandonment on a
navigate action whose target contains the submit-like keyword continue; only the
keyword submit is excluded on the current target, so the claimed condition is not
equivalent to the code. -/
theorem formAbandonment_cex :
    (detectInteractionPattern cexTrackerC8 navContinueDecision [typeEvt]).1 =
        some FrictionPattern.formAbandonment ∧
    containsSub (toLowerStr "continue-shopping") "continue" = true := by decide

/-- C8 amended: when the current action is navigate with a truthy target not yet in
the tracked navigation history and the recent navigation events hold no duplicate,
the detector returns formAbandonment exactly when the form-started flag is set, the
target does not contain submit (continue and next are not excluded on the current
target), at least one type event exists anywhere in the history (the last-three slice
is applied after filtering to type events), and no click on a submit, continue or
next target occurs in the last five events. -/
theorem formAbandonment_characterization :
    ∀ tr dec events,
      dec.action.type = AgentActionType.navigate →
      jsTruthy dec.action.target = true →
      tr.navigationHistory.contains (dec.action.target.getD "") = false →
      recentNavHasDup events = false →
      ((detectInteractionPattern tr dec events).1 =
          some FrictionPattern.formAbandonment ↔
        (tr.formStarted = true ∧
         containsSub (toLowerStr (dec.action.target.getD "")) "submit" = false ∧
         0 < (events.filter (fun e => e.type = EventType.type)).length ∧
         (lastN 5 events).any isSubmitLikeClick = false)) := by
  intro tr dec events hnav htruthy hcontains hdup
  have hlen := lastN_length 3 (events.filter (fun e => e.type = EventType.type))
  simp only [detectInteractionPattern, detectFromNav, detectFromScroll, detectFromForm,
    hnav, htruthy, hcontains, hdup]
  simp only [reduceCtorEq, false_and, and_false, if_false, Bool.false_eq_true,
    ite_false, true_and, and_true, if_true, ite_true, eq_self_iff_true, or_false,
    false_or, true_or, or_true, and_self, Bool.true_and]
  by_cases hf : tr.formStarted = true
  · simp only [hf, and_true, true_and, if_true, ite_true]
    by_cases hsub : containsSub (toLowerStr (dec.action.target.getD "")) "submit" = false
    · simp only [hsub, if_true, ite_true, true_and, and_true]
      by_cases hty : 0 < (lastN 3 (events.filter (fun e => e.type = EventType.type))).length
      · have hty2 : 0 < (events.filter (fun e => e.type = EventType.type)).length := by omega
        simp only [hty, if_true, ite_true, hty2, true_and]
        by_cases hfs : (lastN 5 events).any isSubmitLikeClick = false
        · simp [hfs]
        · simp only [hfs]
          have : ((lastN 5 events).any isSubmitLikeClick = false ∧
              dec.action.type = AgentActionType.navigate) = False := by
            simp [hfs]
          simp [hfs, detectTail_ne_formAbandonment events]
      · have hty2 : ¬ 0 < (events.filter (fun e => e.type = EventType.type)).length := by omega
        simp [hty, hty2, detectTail_ne_formAbandonment events]
    · simp [hsub, detectTail_ne_formAbandonment events]
  · simp [hf, detectTail_ne_formAbandonment events]

/-- Witness for C8 amended: the characterization at a concrete started form, navigate
decision and one-event history. -/
theorem formAbandonment_characterization_witness :
    (detectInteractionPattern cexTrackerC8 navContinueDecision [typeEvt]).1 =
        some FrictionPattern.formAbandonment ↔
      (cexTrackerC8.formStarted = true ∧
       containsSub (toLowerStr (navContinueDecision.action.target.getD "")) "submit" = false ∧
       0 < ([typeEvt].filter (fun e => e.type = EventType.type)).length ∧
       (lastN 5 [typeEvt]).any isSubmitLikeClick = false) :=
  formAbandonment_characterization cexTrackerC8 navContinueDecision [typeEvt]
    (by decide) (by decide) (by decide) (by decide)

/-- C9 counterexample: with four reasoning events followed by five scroll events, no
reasoning event lies in the last five events, yet the detector returns hesitation;
the code counts the last five reasoning events and the last five action events after
filtering, not the events of the last five positions. -/
theorem hesitation_cex :
    (detectInteractionPattern createFreshTracker doneDecision cexEventsC9).1 =
        some FrictionPattern.hesitation ∧
    ((lastN 5 cexEventsC9).filter (fun e => e.type = EventType.reasoning)).length = 0 := by
  decide

/-- C9 amended: at a step whose action is done and with no duplicate among the recent
navigation events, the detector returns hesitation exactly when the whole history
holds more than three reasoning events and fewer than two click or type events; the
window is the filtered lists capped at five, not the last five events, and navigation
events are never counted as actions because the source compares event types against
the string navigate while navigation events are typed navigation. -/
theorem hesitation_characterization :
    ∀ tr dec events,
      dec.action.type = AgentActionType.done →
      recentNavHasDup events = false →
      ((detectInteractionPattern tr dec events).1 = some FrictionPattern.hesitation ↔
        (3 < (events.filter (fun e => e.type = EventType.reasoning)).length ∧
         (events.filter isActionEvent).length < 2)) := by
  intro tr dec events hdone hdup
  simp only [detectInteractionPattern, detectFromNav, detectFromScroll, detectFromForm,
    hdone, hdup]
  simp only [reduceCtorEq, false_and, and_false, if_false, Bool.false_eq_true,
    ite_false, false_or, or_self]
  exact detectTail_hesitation events

/-- Witness for C9 amended: the characterization at the concrete nine-event history. -/
theorem hesitation_characterization_witness :
    (detectInteractionPattern createFreshTracker doneDecision cexEventsC9).1 =
        some FrictionPattern.hesitation ↔
      (3 < (cexEventsC9.filter (fun e => e.type = EventType.reasoning)).length ∧
       (cexEventsC9.filter isActionEvent).length < 2) :=
  hesitation_characterization createFreshTracker doneDecision cexEventsC9
    (by decide) (by decide)

/-- Helper: the action part of a loop iteration preserves the friction accounting. -/
theorem afterFriction_frictionInv (env : Env) (arch : AgentArchetype) (step : Nat)
    (d : LLMDecision) (s : LoopState) (h : frictionInv s) :
    frictionInv (afterFriction env arch step d s).state := by
  simp only [afterFriction]
  split_ifs with h1 h2 h3
  · simpa [StepResult.state, frictionInv] using h
  · simpa [StepResult.state, frictionInv] using h
  · split
    · simpa [StepResult.state, frictionInv] using h
    · simp only [StepResult.state, frictionInv] at h ⊢
      omega
  · split
    · simpa [StepResult.state, frictionInv] using h
    · simp only [StepResult.state, frictionInv] at h ⊢
      omega

/-- Helper: the friction part of a loop iteration preserves the friction accounting. -/
theorem frictionPart_frictionInv (env : Env) (arch : AgentArchetype) (step : Nat)
    (d : LLMDecision) (det : Option FrictionPattern) (s : LoopState)
    (h : frictionInv s) :
    frictionInv (frictionPart env arch step d det s).state := by
  simp only [frictionPart]
  split_ifs with h1 h2
  · split
    · exact afterFriction_frictionInv env arch step d s h
    · simp only [StepResult.state, frictionInv] at h ⊢
      simp
      omega
  · split
    · exact afterFriction_frictionInv env arch step d s h
    · apply afterFriction_frictionInv
      simp only [frictionInv] at h ⊢
      simp
      omega
  · exact afterFriction_frictionInv env arch step d s h

/-- Helper: one loop iteration preserves the friction accounting. -/
theorem stepBody_frictionInv (env : Env) (arch : AgentArchetype) (s : LoopState)
    (h : frictionInv s) : frictionInv (stepBody env arch s).state := by
  simp only [stepBody]
  cases henv : env.oracle (s.stepCount + 1) with
  | error e => simpa [StepResult.state, frictionInv] using h
  | ok d =>
      apply frictionPart_frictionInv
      simpa [frictionInv] using h

/-- Helper: the loop preserves the friction accounting. -/
theorem runLoop_frictionInv (env : Env) (arch : AgentArchetype) :
    ∀ fuel s, frictionInv s → frictionInv (runLoop env arch fuel s) := by
  intro fuel
  induction fuel with
  | zero => intro s h; simpa [runLoop] using h
  | succ n ih =>
      intro s h
      simp only [runLoop]
      split_ifs with hg
      · cases hs : stepBody env arch s with
        | next s2 =>
            apply ih
            have h2 := stepBody_frictionInv env arch s h
            rw [hs] at h2
            simpa [StepResult.state] using h2
        | halt s2 =>
            have h2 := stepBody_frictionInv env arch s h
            rw [hs] at h2
            simpa [StepResult.state] using h2
      · exact h

/-- Helper: the post-loop ceiling check preserves the friction accounting. -/
theorem afterLoop_frictionInv (s : LoopState) (h : frictionInv s) :
    frictionInv (afterLoop s) := by
  simp only [afterLoop]
  split_ifs <;> simpa [frictionInv] using h

/-- C1 counterexample: in a run whose only step fails during action execution, the
persisted summary counts one friction point while no FrictionPoint record was
created. -/
theorem frictionPointCount_cex :
    ¬ ((runAgent cexEnvC1 cexArch).summary.frictionPointCount =
        (runAgent cexEnvC1 cexArch).final.frictionPoints.length) := by decide

/-- C1 amended: for every run, the persisted frictionPointCount equals the number of
FrictionPoint records created for the run plus the number of failed action
executions; the two agree exactly when no action execution failed. -/
theorem frictionCount_accounting (env : Env) (arch : AgentArchetype) :
    (runAgent env arch).summary.frictionPointCount =
      (runAgent env arch).final.frictionPoints.length +
        (runAgent env arch).final.execErrorCount := by
  have hinit : frictionInv (initialState env.url) := by simp [frictionInv, initialState]
  have hempty : frictionInv emptyState := by simp [frictionInv, emptyState]
  simp only [runAgent]
  split_ifs with h
  · simpa [frictionInv] using hempty
  · have h2 := afterLoop_frictionInv _ (runLoop_frictionInv env arch MAX_STEPS _ hinit)
    simpa [frictionInv] using h2

/-- C2 counterexample: when a stop is requested through the stop route, the terminal
status stopped is written both by the route handler and by the finalization, so it is
not written exactly once. -/
theorem terminalWrites_cex :
    ¬ (((runAgent cexEnvC2 cexArch).statusWrites.filter RunStatus.isTerminal).length
        = 1) := by decide

/-- C2 amended: the finalization writes a terminal status exactly once per run, the
status is one of completed, failed and stopped and is chosen with stopped taking
precedence over completed over failed; but when a stop is requested through the stop
route, the route handler writes stopped a second time, so the terminal status of a
stopped run is written twice with the same value. -/
theorem terminalStatus_amended (env : Env) (arch : AgentArchetype)
    (h : env.stopViaRoute = true → env.stopAtEnd = true) :
    (runAgent env arch).finalStatus.isTerminal = true ∧
    (runAgent env arch).finalStatus =
      (if env.stopAtEnd then RunStatus.stopped
       else if (runAgent env arch).final.goalReached then RunStatus.completed
       else RunStatus.failed) ∧
    ((runAgent env arch).statusWrites.filter RunStatus.isTerminal =
      if env.stopViaRoute then [RunStatus.stopped, RunStatus.stopped]
      else [(runAgent env arch).finalStatus]) := by
  refine ⟨?_, ?_, ?_⟩
  · simp only [runAgent, terminalStatusOf]
    split_ifs <;> rfl
  · simp only [runAgent, terminalStatusOf]
  · by_cases hv : env.stopViaRoute = true
    · have he : env.stopAtEnd = true := h hv
      simp [runAgent, terminalStatusOf, hv, he, RunStatus.isTerminal, List.filter]
    · have hv2 : env.stopViaRoute = false := by
        cases hb : env.stopViaRoute
        · rfl
        · exact absurd hb hv
      simp only [runAgent, terminalStatusOf, hv2, Bool.false_eq_true, if_false,
        List.nil_append, List.cons_append, List.filter]
      split_ifs <;> rfl

/-- Witness for C2 amended: the double terminal write at the concrete stopped run. -/
theorem terminalStatus_amended_witness :
    (runAgent cexEnvC2 cexArch).finalStatus.isTerminal = true ∧
    (runAgent cexEnvC2 cexArch).finalStatus =
      (if cexEnvC2.stopAtEnd then RunStatus.stopped
       else if (runAgent cexEnvC2 cexArch).final.goalReached then RunStatus.completed
       else RunStatus.failed) ∧
    ((runAgent cexEnvC2 cexArch).statusWrites.filter RunStatus.isTerminal =
      if cexEnvC2.stopViaRoute then [RunStatus.stopped, RunStatus.stopped]
      else [(runAgent cexEnvC2 cexArch).finalStatus]) :=
  terminalStatus_amended cexEnvC2 cexArch (fun _ => rfl)

/-- Helper: appending keeps a string with nonempty data nonempty. -/
theorem append_data_ne_nil (s t : String) (h : s.data ≠ []) : (s ++ t).data ≠ [] := by
  rw [String.data_append]
  intro hc
  exact h (List.append_eq_nil.mp hc).1

/-- Helper: the friction-threshold abandon message is never empty. -/
theorem tooMuchFrictionMsg_ne_empty (a b : Nat) : tooMuchFrictionMsg a b ≠ "" := by
  have h0 : ("Too much friction (" : String).data ≠ [] := by decide
  have hda : (tooMuchFrictionMsg a b).data ≠ [] := by
    unfold tooMuchFrictionMsg
    exact append_data_ne_nil _ _ (append_data_ne_nil _ _
      (append_data_ne_nil _ _ (append_data_ne_nil _ _ h0)))
  intro hc
  rw [hc] at hda
  exact hda rfl

/-- Helper: the stuck abandon reason is never empty. -/
theorem jsOrStr_ne_empty (r d : String) (hd : d ≠ "") : jsOrStr r d ≠ "" := by
  unfold jsOrStr
  split_ifs with h
  · exact hd
  · exact h

/-- Helper: below the threshold, the action part either continues with the counter
still below the threshold and the goal flag unchanged, or halts in a state that is
threshold-safe relative to the incoming goal flag. -/
theorem afterFriction_c3 (env : Env) (arch : AgentArchetype) (step : Nat)
    (d : LLMDecision) (s : LoopState)
    (hfc : s.frictionCount < arch.constraints.maxFrictionPoints) :
    (∀ s2, afterFriction env arch step d s = StepResult.next s2 →
       s2.frictionCount < arch.constraints.maxFrictionPoints ∧
       s2.goalReached = s.goalReached) ∧
    (∀ s2, afterFriction env arch step d s = StepResult.halt s2 →
       arch.constraints.maxFrictionPoints ≤ s2.frictionCount →
       reasonPopulated s2 ∧ s2.goalReached = s.goalReached) := by
  simp only [afterFriction]
  split_ifs with h1 h2 h3
  · refine ⟨fun s2 hn => by simp at hn, fun s2 hh hle => ?_⟩
    injection hh with hh
    subst hh
    dsimp only at hle
    omega
  · refine ⟨fun s2 hn => by simp at hn, fun s2 hh hle => ?_⟩
    injection hh with hh
    subst hh
    dsimp only at hle
    omega
  · constructor
    · intro s2 hn
      split at hn
      · injection hn with hn
        subst hn
        exact ⟨hfc, rfl⟩
      · simp at hn
    · intro s2 hh hle
      split at hh
      · simp at hh
      · injection hh with hh
        subst hh
        refine ⟨⟨by simp, by simp [tooManyErrorsMsg]⟩, rfl⟩
  · constructor
    · intro s2 hn
      split at hn
      · injection hn with hn
        subst hn
        exact ⟨hfc, rfl⟩
      · injection hn with hn
        subst hn
        refine ⟨?_, rfl⟩
        dsimp only
        omega
    · intro s2 hh hle
      split at hh <;> simp at hh

/-- Helper: below the threshold, the friction part either continues with the counter
still below the threshold and the goal flag unchanged, or halts threshold-safe. -/
theorem frictionPart_c3 (env : Env) (arch : AgentArchetype) (step : Nat)
    (d : LLMDecision) (det : Option FrictionPattern) (s : LoopState)
    (hfc : s.frictionCount < arch.constraints.maxFrictionPoints) :
    (∀ s2, frictionPart env arch step d det s = StepResult.next s2 →
       s2.frictionCount < arch.constraints.maxFrictionPoints ∧
       s2.goalReached = s.goalReached) ∧
    (∀ s2, frictionPart env arch step d det s = StepResult.halt s2 →
       arch.constraints.maxFrictionPoints ≤ s2.frictionCount →
       reasonPopulated s2 ∧ s2.goalReached = s.goalReached) := by
  simp only [frictionPart]
  split_ifs with h1 h2
  · constructor
    · intro s2 hn
      split at hn
      · exact (afterFriction_c3 env arch step d s hfc).1 s2 hn
      · simp at hn
    · intro s2 hh hle
      split at hh
      · exact (afterFriction_c3 env arch step d s hfc).2 s2 hh hle
      · injection hh with hh
        subst hh
        exact ⟨⟨by simp, by simp [tooMuchFrictionMsg_ne_empty]⟩, rfl⟩
  · constructor
    · intro s2 hn
      split at hn
      · exact (afterFriction_c3 env arch step d s hfc).1 s2 hn
      · have hlt : ({ s with
            frictionCount := s.frictionCount + 1 } : LoopState).frictionCount <
              arch.constraints.maxFrictionPoints := by
          dsimp only
          omega
        have hres := afterFriction_c3 env arch step d _ (by
          dsimp only
          omega) |>.1 s2 hn
        exact ⟨hres.1, hres.2⟩
    · intro s2 hh hle
      split at hh
      · exact (afterFriction_c3 env arch step d s hfc).2 s2 hh hle
      · have hres := afterFriction_c3 env arch step d _ (by
          dsimp only
          omega) |>.2 s2 hh hle
        exact ⟨hres.1, hres.2⟩
  · exact afterFriction_c3 env arch step d s hfc

/-- Helper: below the threshold, one loop iteration either continues with the counter
still below the threshold and the goal flag unchanged, or halts threshold-safe. -/
theorem stepBody_c3 (env : Env) (arch : AgentArchetype) (s : LoopState)
    (hfc : s.frictionCount < arch.constraints.maxFrictionPoints) :
    (∀ s2, stepBody env arch s = StepResult.next s2 →
       s2.frictionCount < arch.constraints.maxFrictionPoints ∧
       s2.goalReached = s.goalReached) ∧
    (∀ s2, stepBody env arch s = StepResult.halt s2 →
       arch.constraints.maxFrictionPoints ≤ s2.frictionCount →
       reasonPopulated s2 ∧ s2.goalReached = s.goalReached) := by
  simp only [stepBody]
  cases henv : env.oracle (s.stepCount + 1) with
  | error e =>
      refine ⟨fun s2 hn => by simp at hn, fun s2 hh hle => ?_⟩
      injection hh with hh
      subst hh
      dsimp only at hle
      omega
  | ok d =>
      have hres := frictionPart_c3 env arch (s.stepCount + 1) d
        (detectInteractionPattern s.tracker d s.events).1
        { s with stepCount := s.stepCount + 1,
                 events := s.events ++ [mkEvent EventType.reasoning],
                 tracker := (detectInteractionPattern s.tracker d s.events).2 }
        (by dsimp only; omega)
      constructor
      · intro s2 hn
        have h2 := hres.1 s2 hn
        exact ⟨h2.1, h2.2⟩
      · intro s2 hh hle
        have h2 := hres.2 s2 hh hle
        exact ⟨h2.1, h2.2⟩

/-- Helper: started below the threshold with the goal not reached, the loop ends
threshold-safe. -/
theorem runLoop_c3 (env : Env) (arch : AgentArchetype) :
    ∀ fuel s, s.frictionCount < arch.constraints.maxFrictionPoints →
      s.goalReached = false →
      thresholdGood arch.constraints.maxFrictionPoints (runLoop env arch fuel s) := by
  intro fuel
  induction fuel with
  | zero =>
      intro s hfc hg
      intro hle
      simp only [runLoop] at hle
      omega
  | succ n ih =>
      intro s hfc hg
      simp only [runLoop]
      split_ifs with hguard
      · cases hs : stepBody env arch s with
        | next s2 =>
            have h2 := (stepBody_c3 env arch s hfc).1 s2 hs
            exact ih s2 h2.1 (h2.2.trans hg)
        | halt s2 =>
            intro hle
            have h2 := (stepBody_c3 env arch s hfc).2 s2 hs hle
            exact ⟨h2.1, h2.2.trans hg⟩
      · intro hle
        omega

/-- Helper: the post-loop ceiling check keeps a state threshold-safe. -/
theorem afterLoop_c3 (mx : Nat) (s : LoopState) (h : thresholdGood mx s) :
    thresholdGood mx (afterLoop s) := by
  simp only [afterLoop]
  split_ifs with hc
  · intro hle
    dsimp only at hle
    have h2 := h hle
    refine ⟨⟨by simp, by simp only [ne_eq, Option.some.injEq]; decide⟩, hc.2⟩
  · exact h

/-- C3: when the friction counter reaches the archetype threshold during a step and
no stop was requested, the loop never continues past that step (every continuing step
keeps the counter below the threshold), and the run finalizes as failed with a
populated abandon reason. -/
theorem frictionThreshold_abandons (env : Env) (arch : AgentArchetype)
    (s s2 : LoopState)
    (hmax : 1 ≤ arch.constraints.maxFrictionPoints)
    (hstop : env.stopAtEnd = false) :
    (arch.constraints.maxFrictionPoints ≤ (runAgent env arch).final.frictionCount →
       (runAgent env arch).finalStatus = RunStatus.failed ∧
       (runAgent env arch).final.abandonReason ≠ none ∧
       (runAgent env arch).final.abandonReason ≠ some "") ∧
    (s.frictionCount < arch.constraints.maxFrictionPoints →
       stepBody env arch s = StepResult.next s2 →
       s2.frictionCount < arch.constraints.maxFrictionPoints) := by
  constructor
  · intro hle
    simp only [runAgent] at hle ⊢
    cases hi : env.initFails with
    | true =>
        simp only [hi, if_true, emptyState] at hle
        exact absurd hle (by omega)
    | false =>
        simp only [hi, Bool.false_eq_true, if_false] at hle ⊢
        have htg : thresholdGood arch.constraints.maxFrictionPoints
            (afterLoop (runLoop env arch MAX_STEPS (initialState env.url))) :=
          afterLoop_c3 _ _ (runLoop_c3 env arch MAX_STEPS (initialState env.url)
            (by simp only [initialState]; omega) rfl)
        obtain ⟨hpop, hgoal⟩ := htg hle
        refine ⟨?_, hpop.1, hpop.2⟩
        simp [terminalStatusOf, hstop, hgoal]
  · intro hfc hn
    exact ((stepBody_c3 env arch s hfc).1 s2 hn).1

/-- Witness for C3: a run whose first decision judges friction against a threshold of
one ends failed with a populated abandon reason. -/
theorem frictionThreshold_abandons_witness :
    (runAgent wEnvC3 cexArch).finalStatus = RunStatus.failed ∧
    (runAgent wEnvC3 cexArch).final.abandonReason ≠ none ∧
    (runAgent wEnvC3 cexArch).final.abandonReason ≠ some "" :=
  (frictionThreshold_abandons wEnvC3 cexArch emptyState emptyState
    (by decide) rfl).1 (by decide)

/-- Helper: a benign oracle step continues the loop, incrementing only the step
counter among the tracked scalars. -/
theorem stepBody_benign (env : Env) (arch : AgentArchetype) (s : LoopState)
    (hd : ∃ d, env.oracle (s.stepCount + 1) = Except.ok d ∧
      d.action.type ≠ AgentActionType.done ∧
      d.action.type ≠ AgentActionType.stuck ∧
      frictionDetected d = false ∧
      ∃ evs, executeActionResult (env.execFails (s.stepCount + 1)) d.action =
        Except.ok evs) :
    ∃ s2, stepBody env arch s = StepResult.next s2 ∧
      s2.stepCount = s.stepCount + 1 ∧ s2.frictionCount = s.frictionCount ∧
      s2.goalReached = s.goalReached ∧ s2.abandonReason = s.abandonReason := by
  obtain ⟨d, hod, hnd, hns, hnf, evs, hex⟩ := hd
  have hstep : stepBody env arch s = StepResult.next
      { s with stepCount := s.stepCount + 1,
               events := (s.events ++ [mkEvent EventType.reasoning]) ++ evs,
               tracker := (detectInteractionPattern s.tracker d s.events).2 } := by
    simp only [stepBody, frictionPart, afterFriction, hod, hnf, hnd, hns, hex,
      Bool.false_eq_true, if_false, ite_false]
  exact ⟨_, hstep, rfl, rfl, rfl, rfl⟩

/-- Helper: with no stop request and a benign oracle, the loop runs the whole fuel and
ends with the step counter at the ceiling, the goal not reached and no abandon
reason. -/
theorem runLoop_benign (env : Env) (arch : AgentArchetype)
    (hstopB : ∀ k, env.stopBefore k = false) (hben : benignOracle env) :
    ∀ fuel s, s.stepCount + fuel = MAX_STEPS →
      (runLoop env arch fuel s).stepCount = MAX_STEPS ∧
      (runLoop env arch fuel s).goalReached = s.goalReached ∧
      (runLoop env arch fuel s).abandonReason = s.abandonReason := by
  intro fuel
  induction fuel with
  | zero =>
      intro s hsc
      simp only [runLoop]
      exact ⟨by omega, trivial, trivial⟩
  | succ n ih =>
      intro s hsc
      simp only [runLoop]
      have hguard : s.stepCount < MAX_STEPS ∧ env.stopBefore (s.stepCount + 1) = false :=
        ⟨by omega, hstopB _⟩
      rw [if_pos hguard]
      obtain ⟨s2, hnext, hsc2, _, hg2, ha2⟩ := stepBody_benign env arch s (hben _)
      rw [hnext]
      have hres := ih s2 (by omega)
      exact ⟨hres.1, hres.2.1.trans hg2, hres.2.2.trans ha2⟩

/-- C4: when the oracle never returns done or stuck, never judges friction and every
action executes, with no stop requested and a successful launch, the run terminates
at exactly step 50 with status failed and the abandon reason naming the step
budget. -/
theorem stepBudget_exhaustion (env : Env) (arch : AgentArchetype)
    (hinit : env.initFails = false)
    (hstopB : ∀ k, env.stopBefore k = false)
    (hstopE : env.stopAtEnd = false)
    (hben : benignOracle env) :
    (runAgent env arch).final.stepCount = MAX_STEPS ∧
    (runAgent env arch).finalStatus = RunStatus.failed ∧
    (runAgent env arch).final.abandonReason = some maxStepsMsg := by
  obtain ⟨h50, hg, ha⟩ := runLoop_benign env arch hstopB hben MAX_STEPS
    (initialState env.url) (by simp [initialState])
  have hg2 : (runLoop env arch MAX_STEPS (initialState env.url)).goalReached = false := hg
  simp only [runAgent, hinit, Bool.false_eq_true, if_false, afterLoop]
  rw [if_pos ⟨by omega, hg2⟩]
  refine ⟨h50, ?_, rfl⟩
  simp [terminalStatusOf, hstopE, hg2]

/-- Witness for C4: the concrete always-scroll environment exhausts the budget. -/
theorem stepBudget_exhaustion_witness :
    (runAgent wEnvC4 cexArch).final.stepCount = MAX_STEPS ∧
    (runAgent wEnvC4 cexArch).finalStatus = RunStatus.failed ∧
    (runAgent wEnvC4 cexArch).final.abandonReason = some maxStepsMsg :=
  stepBudget_exhaustion wEnvC4 cexArch rfl (fun _ => rfl) rfl
    (fun _ => ⟨scrollDecision, rfl, by decide, by decide, rfl,
      ⟨[mkEvent EventType.scroll { direction := some "down" }], rfl⟩⟩)

/-- Helper: unfolding one guarded loop iteration. -/
theorem runLoop_succ_eq (env : Env) (arch : AgentArchetype) (fuel : Nat)
    (s : LoopState) (h1 : s.stepCount < MAX_STEPS)
    (h2 : env.stopBefore (s.stepCount + 1) = false) :
    runLoop env arch (fuel + 1) s =
      (match stepBody env arch s with
       | StepResult.next s2 => runLoop env arch fuel s2
       | StepResult.halt s2 => s2) := by
  simp only [runLoop]
  rw [if_pos ⟨h1, h2⟩]

/-- C5 counterexample: when the oracle call throws at the first step, the run ends
failed but no synthetic stuck decision is taken: the orchestrator records an error
event and exits the loop directly, leaving no abandoned event and no abandon
reason, unlike the stuck path the claim describes. -/
theorem oracleFailure_cex :
    (runAgent cexEnvC5 cexArch).finalStatus = RunStatus.failed ∧
    (runAgent cexEnvC5 cexArch).final.abandonReason = none ∧
    ((runAgent cexEnvC5 cexArch).final.events.filter
      (fun e => e.type = EventType.abandoned)).length = 0 ∧
    ((runAgent cexEnvC5 cexArch).final.events.filter
      (fun e => e.type = EventType.error)).length = 1 := by decide

/-- C5 amended: the stuck degradation happens only for unparseable responses, inside
the oracle layer: when the first oracle call throws, the orchestrator logs an error
event and ends the run failed with no stuck decision, no abandoned event and no
abandon reason; when the first call returns the parse-failure stuck decision, the run
ends failed through the stuck path with the abandoned event and the synthetic
reason. -/
theorem oracleFailure_paths (env : Env) (arch : AgentArchetype)
    (h1 : env.initFails = false) (h2 : env.stopBefore 1 = false)
    (h3 : env.stopAtEnd = false) :
    (env.oracle 1 = Except.error () →
       (runAgent env arch).finalStatus = RunStatus.failed ∧
       (runAgent env arch).final.abandonReason = none ∧
       ((runAgent env arch).final.events.filter
         (fun e => e.type = EventType.abandoned)).length = 0 ∧
       ((runAgent env arch).final.events.filter
         (fun e => e.type = EventType.error)).length = 1) ∧
    (env.oracle 1 = Except.ok parseFailureDecision →
       (runAgent env arch).finalStatus = RunStatus.failed ∧
       (runAgent env arch).final.abandonReason =
         some "Failed to determine next action due to parsing error" ∧
       ((runAgent env arch).final.events.filter
         (fun e => e.type = EventType.abandoned)).length = 1) := by
  constructor
  · intro ho
    simp only [runAgent, h1, Bool.false_eq_true, if_false]
    rw [show MAX_STEPS = 49 + 1 from rfl]
    rw [runLoop_succ_eq env arch 49 _ (by simp [initialState, MAX_STEPS])
      (by simpa [initialState] using h2)]
    simp only [stepBody, initialState, Nat.zero_add, ho]
    simp [afterLoop, MAX_STEPS, terminalStatusOf, h3, mkEvent, List.filter]
  · intro ho
    simp only [runAgent, h1, Bool.false_eq_true, if_false]
    rw [show MAX_STEPS = 49 + 1 from rfl]
    rw [runLoop_succ_eq env arch 49 _ (by simp [initialState, MAX_STEPS])
      (by simpa [initialState] using h2)]
    simp only [stepBody, initialState, Nat.zero_add, ho]
    simp [frictionPart, afterFriction, frictionDetected, parseFailureDecision,
      jsOrStr, afterLoop, MAX_STEPS, terminalStatusOf, h3, mkEvent, List.filter]

/-- Witness for C5 amended: both paths at concrete environments. -/
theorem oracleFailure_paths_witness :
    ((runAgent cexEnvC5 cexArch).final.abandonReason = none ∧
     ((runAgent cexEnvC5 cexArch).final.events.filter
       (fun e => e.type = EventType.error)).length = 1) ∧
    ((runAgent wEnvC5 cexArch).finalStatus = RunStatus.failed ∧
     (runAgent wEnvC5 cexArch).final.abandonReason =
       some "Failed to determine next action due to parsing error" ∧
     ((runAgent wEnvC5 cexArch).final.events.filter
       (fun e => e.type = EventType.abandoned)).length = 1) :=
  ⟨⟨((oracleFailure_paths cexEnvC5 cexArch rfl rfl rfl).1 rfl).2.1,
    ((oracleFailure_paths cexEnvC5 cexArch rfl rfl rfl).1 rfl).2.2.2⟩,
   (oracleFailure_paths wEnvC5 cexArch rfl rfl rfl).2 rfl⟩

/-- Helper: the scroll-direction invariant is closed under append. -/
theorem scrollInv_append {l m : List RunEvent} (hl : scrollInv l) (hm : scrollInv m) :
    scrollInv (l ++ m) := by
  intro e he ht
  rcases List.mem_append.mp he with h | h
  · exact hl e h ht
  · exact hm e h ht

/-- Helper: a singleton history satisfies the scroll-direction invariant when the
event is not a scroll or points down. -/
theorem scrollInv_mk (t : EventType) (d : EventData)
    (h : t = EventType.scroll → d.direction = some "down") : scrollInv [mkEvent t d] := by
  intro e he ht
  rw [List.mem_singleton] at he
  subst he
  exact h ht

/-- Helper: every event list a successful action execution persists satisfies the
scroll-direction invariant; in particular the scroll case always records down. -/
theorem executeActionResult_scrollInv (b : Bool) (action : AgentAction)
    (evs : List RunEvent) (h : executeActionResult b action = Except.ok evs) :
    scrollInv evs := by
  unfold executeActionResult at h
  split at h
  · split at h
    · simp at h
    · split at h
      · simp at h
      · injection h with h
        subst h
        exact scrollInv_mk _ _ (fun hc => absurd hc (by decide))
  · split at h
    · simp at h
    · split at h
      · simp at h
      · injection h with h
        subst h
        exact scrollInv_mk _ _ (fun hc => absurd hc (by decide))
  · split at h
    · simp at h
    · injection h with h
      subst h
      exact scrollInv_mk _ _ (fun _ => rfl)
  · split at h
    · simp at h
    · split at h
      · simp at h
      · injection h with h
        subst h
        exact scrollInv_mk _ _ (fun hc => absurd hc (by decide))
  · injection h with h
    subst h
    intro e he ht
    simp at he
  · injection h with h
    subst h
    intro e he ht
    simp at he

/-- Helper: the action part preserves the scroll-direction invariant. -/
theorem afterFriction_scrollInv (env : Env) (arch : AgentArchetype) (step : Nat)
    (d : LLMDecision) (s : LoopState) (h : scrollInv s.events) :
    scrollInv (afterFriction env arch step d s).state.events := by
  simp only [afterFriction]
  split_ifs with h1 h2 h3
  · exact scrollInv_append h (scrollInv_mk _ _ (fun hc => absurd hc (by decide)))
  · exact scrollInv_append h (scrollInv_mk _ _ (fun hc => absurd hc (by decide)))
  · split
    next evs heq =>
      exact scrollInv_append h (executeActionResult_scrollInv _ _ _ heq)
    next err heq =>
      exact scrollInv_append h (scrollInv_mk _ _ (fun hc => absurd hc (by decide)))
  · split
    next evs heq =>
      exact scrollInv_append h (executeActionResult_scrollInv _ _ _ heq)
    next err heq =>
      exact scrollInv_append h (scrollInv_mk _ _ (fun hc => absurd hc (by decide)))

/-- Helper: the friction part preserves the scroll-direction invariant. -/
theorem frictionPart_scrollInv (env : Env) (arch : AgentArchetype) (step : Nat)
    (d : LLMDecision) (det : Option FrictionPattern) (s : LoopState)
    (h : scrollInv s.events) :
    scrollInv (frictionPart env arch step d det s).state.events := by
  simp only [frictionPart]
  split_ifs with h1 h2
  · split
    · exact afterFriction_scrollInv env arch step d s h
    · exact scrollInv_append
        (scrollInv_append h (scrollInv_mk _ _ (fun hc => absurd hc (by decide))))
        (scrollInv_mk _ _ (fun hc => absurd hc (by decide)))
  · split
    · exact afterFriction_scrollInv env arch step d s h
    · apply afterFriction_scrollInv
      exact scrollInv_append h (scrollInv_mk _ _ (fun hc => absurd hc (by decide)))
  · exact afterFriction_scrollInv env arch step d s h

/-- Helper: one loop iteration preserves the scroll-direction invariant. -/
theorem stepBody_scrollInv (env : Env) (arch : AgentArchetype) (s : LoopState)
    (h : scrollInv s.events) : scrollInv (stepBody env arch s).state.events := by
  simp only [stepBody]
  cases henv : env.oracle (s.stepCount + 1) with
  | error e =>
      exact scrollInv_append h (scrollInv_mk _ _ (fun hc => absurd hc (by decide)))
  | ok d =>
      apply frictionPart_scrollInv
      exact scrollInv_append h (scrollInv_mk _ _ (fun hc => absurd hc (by decide)))

/-- Helper: the loop preserves the scroll-direction invariant. -/
theorem runLoop_scrollInv (env : Env) (arch : AgentArchetype) :
    ∀ fuel s, scrollInv s.events → scrollInv (runLoop env arch fuel s).events := by
  intro fuel
  induction fuel with
  | zero => intro s h; simpa [runLoop] using h
  | succ n ih =>
      intro s h
      simp only [runLoop]
      split_ifs with hg
      · cases hs : stepBody env arch s with
        | next s2 =>
            apply ih
            have h2 := stepBody_scrollInv env arch s h
            rw [hs] at h2
            exact h2
        | halt s2 =>
            have h2 := stepBody_scrollInv env arch s h
            rw [hs] at h2
            exact h2
      · exact h

/-- Helper: the post-loop ceiling check preserves the scroll-direction invariant. -/
theorem afterLoop_scrollInv (s : LoopState) (h : scrollInv s.events) :
    scrollInv (afterLoop s).events := by
  simp only [afterLoop]
  split_ifs with hc
  · exact scrollInv_append h (scrollInv_mk _ _ (fun hcon => absurd hcon (by decide)))
  · exact h

/-- Helper: every run history satisfies the scroll-direction invariant. -/
theorem runAgent_scrollInv (env : Env) (arch : AgentArchetype) :
    scrollInv (runAgent env arch).final.events := by
  simp only [runAgent]
  split_ifs with hi
  · intro e he ht
    simp [emptyState] at he
  · apply afterLoop_scrollInv
    apply runLoop_scrollInv
    exact scrollInv_mk _ _ (fun hc => absurd hc (by decide))

/-- C10: executing a scroll decision always scrolls down and persists a scroll event
whose direction is down, whatever the oracle intended; consequently every scroll
event in a run history has direction down. -/
theorem scroll_direction_down (env : Env) (arch : AgentArchetype) (b : Bool)
    (action : AgentAction) (e : RunEvent)
    (hscroll : action.type = AgentActionType.scroll)
    (he : e ∈ (runAgent env arch).final.events) (het : e.type = EventType.scroll) :
    executeActionResult b action =
      (if b then Except.error ()
       else Except.ok [mkEvent EventType.scroll { direction := some "down" }]) ∧
    e.data.direction = some "down" := by
  constructor
  · simp [executeActionResult, hscroll]
  · exact runAgent_scrollInv env arch e he het

/-- Witness for C10: the scroll execution shape and a concrete scroll event of a
concrete run. -/
theorem scroll_direction_down_witness :
    (executeActionResult true scrollDecision.action =
      (if true then Except.error ()
       else Except.ok [mkEvent EventType.scroll { direction := some "down" }])) ∧
    (mkEvent EventType.scroll { direction := some "down" }).data.direction =
      some "down" :=
  scroll_direction_down wEnvC10 cexArch true scrollDecision.action
    (mkEvent EventType.scroll { direction := some "down" }) rfl (by decide) rfl

end DryRun

